import Mathlib

/-!
Shallow embedding of the CDSW Python-3.12 switching scripts
(`cdsw_python312_helper_fixed.py`, `fix_cdsw_python_version.py`,
`cdsw_python_switcher.py`, `cdsw_python312_installer.py`,
`cdsw_switch_to_venv.py`, `test_python312.py`) and proofs about them.

The scripts mutate `os.environ`, `sys.executable` and `sys.path`, and run
subprocesses.  We model the process state explicitly (`PyState`), and the
outside world the scripts observe (`which python3.12` outcome, filesystem
existence checks, the pwd database, outcomes of the subprocesses they
launch) as a record `Sys`.  Python exceptions that escape a function are
modelled with `Except Exc`; a caught exception is part of the function's
ordinary return value.
-/

/-- The whitespace characters stripped by Python's `str.strip()` (ASCII
subset: space, tab, newline, carriage return, vertical tab, form feed). -/
def isPySpace (c : Char) : Bool :=
  c == ' ' || c == '\t' || c == '\n' || c == '\r' || c == Char.ofNat 11 || c == Char.ofNat 12

/-- Python `str.strip()` on the ASCII whitespace characters. -/
def pyStrip (s : String) : String :=
  ⟨((s.data.dropWhile isPySpace).reverse.dropWhile isPySpace).reverse⟩

/-- `posixpath.dirname`: everything up to the last slash, with trailing
slashes stripped unless the head consists only of slashes. -/
def dirname (p : String) : String :=
  let headRev := p.data.reverse.dropWhile (fun c => c ≠ '/')
  let headRev2 :=
    if headRev ≠ [] ∧ headRev.any (fun c => c ≠ '/') then
      headRev.dropWhile (fun c => c = '/')
    else headRev
  ⟨headRev2.reverse⟩

/-- `l₂` begins with `l₁` (Python `str.startswith` on explicit char lists). -/
def isPrefixChars : List Char → List Char → Bool
  | [], _ => true
  | _ :: _, [] => false
  | a :: as, b :: bs => a == b && isPrefixChars as bs

/-- `needle` occurs as a contiguous substring of `hay`
(Python's `needle in hay` on strings). -/
def occursIn (needle : List Char) : List Char → Bool
  | [] => isPrefixChars needle []
  | c :: t => isPrefixChars needle (c :: t) || occursIn needle t

/-- Python `needle in hay` for strings. -/
def strContains (hay needle : String) : Bool :=
  occursIn needle.data hay.data

/-- Python `s.startswith(pre)`. -/
def startsWithStr (s pre : String) : Bool :=
  isPrefixChars pre.data s.data

/-- Python `s.endswith(suf)`. -/
def endsWithStr (s suf : String) : Bool :=
  isPrefixChars suf.data.reverse s.data.reverse

/-- `posixpath.join` for two components, as the scripts use it. -/
def pjoin (a b : String) : String :=
  if startsWithStr b "/" then b
  else if a = "" ∨ endsWithStr a "/" then a ++ b
  else a ++ "/" ++ b

/-- Python `s.replace(old, new, 1)` on char lists: replace the first
occurrence of `old` (an empty `old` matches at the front). -/
def replaceFirstAux (old new : List Char) : List Char → List Char
  | [] => if isPrefixChars old [] then new else []
  | c :: t =>
    if isPrefixChars old (c :: t) then new ++ List.drop old.length (c :: t)
    else c :: replaceFirstAux old new t

/-- Python `s.replace(old, new, 1)`. -/
def replaceFirst (s old new : String) : String :=
  ⟨replaceFirstAux old.data new.data s.data⟩

/-- Drop the first `n` characters of a string (Python `s[n:]`). -/
def strDrop (s : String) (n : Nat) : String :=
  ⟨s.data.drop n⟩

/-- An environment-variable map (`os.environ`): variable name to value. -/
def EnvMap : Type := String → Option String

/-- `os.environ[k] = v`. -/
def setEnv (e : EnvMap) (k v : String) : EnvMap :=
  fun k2 => if k2 = k then some v else e k2

/-- `os.environ.get(k, d)`. -/
def getEnvD (e : EnvMap) (k d : String) : String :=
  (e k).getD d

/-- Outcome of `subprocess.run(["which", "python3.12"], ..., check=True)`:
exit 0 with the given stdout, non-zero exit (`CalledProcessError`), or the
lookup binary itself missing (`FileNotFoundError` from process launch). -/
inductive WhichResult where
  | ok (stdout : String)
  | exitError
  | notFound
deriving DecidableEq

/-- Outcome of one of the other subprocesses the scripts launch with
`check=True`: clean exit, non-zero exit (`CalledProcessError`), or a launch
failure (`FileNotFoundError`). -/
inductive RunOutcome where
  | succeeds
  | fails
  | raises
deriving DecidableEq

/-- A Python exception escaping a modelled function. -/
inductive Exc where
  | fileNotFoundError
deriving DecidableEq

/-- The facets of the operating system the scripts observe: the result of
the `which python3.12` lookup, `os.path.exists`, the data `expanduser`
needs (current user's home directory, pwd database), whether
`import zoneinfo` succeeds, the outcomes of the subprocesses launched by
the venv installer, and whether opening a file for writing succeeds. -/
structure Sys where
  which312 : WhichResult
  existsPath : String → Bool
  currentUserHome : Option String
  pwdDir : String → Option String
  zoneinfoOk : Bool
  py312VersionCheck : RunOutcome
  venvCreate : RunOutcome
  pipUpgrade : RunOutcome
  aptSteps : List RunOutcome
  writeOk : String → Bool

/-- The mutable interpreter state the scripts touch: `os.environ`,
`sys.executable` and `sys.path`. -/
structure PyState where
  env : EnvMap
  sysExecutable : String
  sysPath : List String

/-- Finish `posixpath.expanduser`: `userhome.rstrip('/') + path[i:]`,
or `'/'` when that is empty. -/
def finishExpand (userhome : String) (tail : List Char) : String :=
  let uh := (userhome.data.reverse.dropWhile (fun c => c = '/')).reverse
  let r := uh ++ tail
  if r = [] then "/" else ⟨r⟩

/-- `posixpath.expanduser`: a path not starting with `~` is returned
unchanged; `~` (alone or before a slash) expands via `HOME`, falling back
to the current user's pwd entry; `~user` expands via the pwd database and
is returned unchanged when the user is unknown. -/
def expanduser (sy : Sys) (env : EnvMap) (path : String) : String :=
  if ¬ startsWithStr path "~" then path
  else
    let rest := path.data.drop 1
    let name := rest.takeWhile (fun c => c ≠ '/')
    let tail := rest.dropWhile (fun c => c ≠ '/')
    if name = [] then
      match env "HOME" with
      | some h => finishExpand h tail
      | none =>
        match sy.currentUserHome with
        | some h => finishExpand h tail
        | none => path
    else
      match sy.pwdDir ⟨name⟩ with
      | some h => finishExpand h tail
      | none => path

namespace HelperFixed

/-- `switch_to_python312` from `cdsw_python312_helper_fixed.py` (lines
10-51).  Runs `which python3.12` with `check=True`; on success strips the
stdout, sets `sys.executable`, prepends `dirname(path) + ":"` to `PATH`
and sets `PY_PYTHON` and `PYTHON_VERSION` to `"3.12"`, returning `True`.
`CalledProcessError` and every other exception (including the
`FileNotFoundError` of a missing `which` binary) are caught and yield
`False`. -/
def switch_to_python312 (sy : Sys) (st : PyState) : Bool × PyState :=
  match sy.which312 with
  | .ok out =>
    let python312_path := pyStrip out
    let st := { st with sysExecutable := python312_path }
    let python312_dir := dirname python312_path
    let current_path := getEnvD st.env "PATH" ""
    let st := { st with env := setEnv st.env "PATH" (python312_dir ++ ":" ++ current_path) }
    let st := { st with env := setEnv st.env "PY_PYTHON" "3.12" }
    let st := { st with env := setEnv st.env "PYTHON_VERSION" "3.12" }
    (true, st)
  | .exitError => (false, st)
  | .notFound => (false, st)

/-- The fixed candidate list of `switch_to_python312_advanced`
(lines 82-86). -/
def common_locations : List String :=
  ["/usr/bin/python3.12", "/usr/local/bin/python3.12", "/opt/python3.12/bin/python3.12"]

/-- The `for location in common_locations` loop (lines 88-92): the first
candidate that exists on the filesystem. -/
def firstExistingLoc (sy : Sys) : Option String :=
  common_locations.find? sy.existsPath

/-- Python falsiness of the `python312_path` variable: `None` or the
empty string. -/
def falsyOpt (o : Option String) : Bool :=
  o == none || o == some ""

/-- The value of `python312_path` in `switch_to_python312_advanced` after
Method 1 (`which`, catching only `CalledProcessError`) and Method 2 (the
candidate loop, entered when the variable is falsy).  A missing `which`
binary raises `FileNotFoundError`, which this function does not catch. -/
def adv_findPath (sy : Sys) : Except Exc (Option String) :=
  match sy.which312 with
  | .notFound => .error .fileNotFoundError
  | .exitError =>
    match firstExistingLoc sy with
    | some l => .ok (some l)
    | none => .ok none
  | .ok out =>
    let p0 := some (pyStrip out)
    if falsyOpt p0 then
      match firstExistingLoc sy with
      | some l => .ok (some l)
      | none => .ok p0
    else .ok p0

/-- `switch_to_python312_advanced` from `cdsw_python312_helper_fixed.py`
(lines 53-127).  Resolves an interpreter path via `which` and the candidate
list; a falsy resolved path yields `False` with no state change; otherwise
`sys.executable`, `PATH`, `PY_PYTHON` and `PYTHON_VERSION` are updated and
the function returns `True` whether or not the `import zoneinfo` probe
succeeds (both the success branch and the `ImportError` branch return
`True`, lines 119-127). -/
def switch_to_python312_advanced (sy : Sys) (st : PyState) : Except Exc (Bool × PyState) :=
  match adv_findPath sy with
  | .error e => .error e
  | .ok p1 =>
    match p1 with
    | none => .ok (false, st)
    | some p =>
      if p = "" then .ok (false, st)
      else
        let st := { st with sysExecutable := p }
        let python312_dir := dirname p
        let current_path := getEnvD st.env "PATH" ""
        let st := { st with env := setEnv st.env "PATH" (python312_dir ++ ":" ++ current_path) }
        let st := { st with env := setEnv st.env "PY_PYTHON" "3.12" }
        let st := { st with env := setEnv st.env "PYTHON_VERSION" "3.12" }
        if sy.zoneinfoOk then .ok (true, st) else .ok (true, st)

end HelperFixed

namespace FixVersion

/-- `fix_python_version` from `fix_cdsw_python_version.py` (lines 20-83).
Identical mutations to `HelperFixed.switch_to_python312`, but the returned
boolean is the outcome of the `import zoneinfo` probe: `True` only when
`zoneinfo` is importable after the switch (lines 68-74).  `CalledProcessError`
and all other exceptions are caught and yield `False` with no mutation. -/
def fix_python_version (sy : Sys) (st : PyState) : Bool × PyState :=
  match sy.which312 with
  | .ok out =>
    let python312_path := pyStrip out
    let st := { st with sysExecutable := python312_path }
    let python312_dir := dirname python312_path
    let current_path := getEnvD st.env "PATH" ""
    let st := { st with env := setEnv st.env "PATH" (python312_dir ++ ":" ++ current_path) }
    let st := { st with env := setEnv st.env "PY_PYTHON" "3.12" }
    let st := { st with env := setEnv st.env "PYTHON_VERSION" "3.12" }
    (sy.zoneinfoOk, st)
  | .exitError => (false, st)
  | .notFound => (false, st)

end FixVersion

namespace Switcher

/-- `switch_to_python312_method1` from `cdsw_python_switcher.py` (lines
69-102).  On a successful `which` it prepends the interpreter directory to
`PATH` and sets `sys.executable`, returning `True`; only
`subprocess.CalledProcessError` is caught (yielding `False`), so the
`FileNotFoundError` of a missing `which` binary propagates to the caller. -/
def switch_to_python312_method1 (sy : Sys) (st : PyState) : Except Exc (Bool × PyState) :=
  match sy.which312 with
  | .ok out =>
    let python312_path := pyStrip out
    let python312_dir := dirname python312_path
    let current_path := getEnvD st.env "PATH" ""
    let st := { st with env := setEnv st.env "PATH" (python312_dir ++ ":" ++ current_path) }
    let st := { st with sysExecutable := python312_path }
    .ok (true, st)
  | .exitError => .ok (false, st)
  | .notFound => .error .fileNotFoundError

/-- `switch_to_python312_method3` from `cdsw_python_switcher.py` (lines
164-197).  On a successful `which` it sets `PY_PYTHON` and
`PYTHON_VERSION` to `"3.12"`, prepends the interpreter directory to `PATH`
and sets `sys.executable`, returning `True`; only `CalledProcessError` is
caught. -/
def switch_to_python312_method3 (sy : Sys) (st : PyState) : Except Exc (Bool × PyState) :=
  match sy.which312 with
  | .ok out =>
    let python312_path := pyStrip out
    let python312_dir := dirname python312_path
    let st := { st with env := setEnv st.env "PY_PYTHON" "3.12" }
    let st := { st with env := setEnv st.env "PYTHON_VERSION" "3.12" }
    let current_path := getEnvD st.env "PATH" ""
    let st := { st with env := setEnv st.env "PATH" (python312_dir ++ ":" ++ current_path) }
    let st := { st with sysExecutable := python312_path }
    .ok (true, st)
  | .exitError => .ok (false, st)
  | .notFound => .error .fileNotFoundError

end Switcher

namespace Installer

/-- `create_python312_venv` from `cdsw_python312_installer.py` (lines
78-110).  Expands the venv path, (re)creates the venv with
`python3.12 -m venv` and upgrades pip, both with `check=True` and only
`CalledProcessError` caught (yielding `None`); a launch failure of either
subprocess propagates as `FileNotFoundError`.  On success the expanded
venv path is returned. -/
def create_python312_venv (sy : Sys) (env : EnvMap) (venv_path : String) :
    Except Exc (Option String) :=
  let venv_path := expanduser sy env venv_path
  match sy.venvCreate with
  | .raises => .error .fileNotFoundError
  | .fails => .ok none
  | .succeeds =>
    match sy.pipUpgrade with
    | .raises => .error .fileNotFoundError
    | .fails => .ok none
    | .succeeds => .ok (some venv_path)

/-- `switch_to_venv` from `cdsw_python312_installer.py` (lines 112-154).
Expands the venv path; when the venv directory is missing returns `False`
with no mutation.  Otherwise prepends `<venv>/bin:` to `PATH`, sets
`VIRTUAL_ENV`; when the site-packages directory exists, removes from
`sys.path` every entry containing `"python3.6"` or `"python2.7"` and
inserts the site-packages path at index 0 only if it is not already
present; finally sets `sys.executable` to `<venv>/bin/python` when that
file exists.  Returns `True`. -/
def switch_to_venv (sy : Sys) (st : PyState) (venv_path : String) : Bool × PyState :=
  let venv_path := expanduser sy st.env venv_path
  let venv_bin_path := pjoin venv_path "bin"
  if ¬ sy.existsPath venv_path then (false, st)
  else
    let st := { st with env := setEnv st.env "PATH" (venv_bin_path ++ ":" ++ getEnvD st.env "PATH" "") }
    let st := { st with env := setEnv st.env "VIRTUAL_ENV" venv_path }
    let site_packages_path := pjoin (pjoin (pjoin venv_path "lib") "python3.12") "site-packages"
    let st :=
      if sy.existsPath site_packages_path then
        let sp := st.sysPath.filter
          (fun p => !strContains p "python3.6" && !strContains p "python2.7")
        let sp := if site_packages_path ∈ sp then sp else site_packages_path :: sp
        { st with sysPath := sp }
      else st
    let venv_python := pjoin venv_bin_path "python"
    let st := if sy.existsPath venv_python then { st with sysExecutable := venv_python } else st
    (true, st)

/-- The body of the f-string written by `create_activation_script`
(`cdsw_python312_installer.py` lines 242-255), with the expanded venv path
substituted at its two placeholders. -/
def activation_content (venv_path : String) : String :=
  "#!/bin/bash\n# Script to activate Python 3.12 virtual environment in CDSW\n\nexport VIRTUAL_ENV=\"" ++ venv_path
  ++ "\"\nexport PATH=\"" ++ venv_path
  ++ "/bin:$PATH\"\n\n# Unset PYTHON_HOME if set\nunset PYTHON_HOME\n\necho \"Python 3.12 virtual environment activated\"\necho \"Virtual environment: $VIRTUAL_ENV\"\necho \"Python executable: $(which python)\"\npython --version\n"

/-- `create_activation_script` from `cdsw_python312_installer.py` (lines
235-269).  Expands the venv path, renders the activation script content and
writes it to `~/activate_py312.sh`.  The first component is the function's
return value (the script path, or `None` when writing fails and the
`except` clause runs); the second component is the content handed to
`f.write`. -/
def create_activation_script (sy : Sys) (env : EnvMap) (venv_path : String) :
    Option String × String :=
  let venv_path := expanduser sy env venv_path
  let activation_script_path := expanduser sy env "~/activate_py312.sh"
  let content := activation_content venv_path
  if sy.writeOk activation_script_path then (some activation_script_path, content)
  else (none, content)

/-- The argument pair `(command, env)` that `force_python312_execution`
(`cdsw_python312_installer.py` lines 271-294) passes to `subprocess.run`. -/
structure ShellCall where
  cmd : String
  env : EnvMap

/-- The command rewriting and child-environment construction of
`force_python312_execution` (lines 276-290): commands starting with
`"python "` or `"pip "` have that first occurrence replaced by the venv
binary, the bare commands `"python"`/`"python3"` are replaced whole, and
every other command is passed through unchanged; the child environment is
a copy of the current one with `PATH` prefixed by the venv `bin` directory
and `VIRTUAL_ENV` set to the expanded venv path. -/
def force_python312_call (sy : Sys) (env : EnvMap) (command venv_path : String) : ShellCall :=
  let venv_path := expanduser sy env venv_path
  let venv_bin_path := pjoin venv_path "bin"
  let command :=
    if startsWithStr command "python " then
      replaceFirst command "python " (venv_bin_path ++ "/python ")
    else if startsWithStr command "pip " then
      replaceFirst command "pip " (venv_bin_path ++ "/pip ")
    else if command = "python" ∨ command = "python3" then
      venv_bin_path ++ "/python"
    else command
  let env := setEnv env "PATH" (venv_bin_path ++ ":" ++ getEnvD env "PATH" "")
  let env := setEnv env "VIRTUAL_ENV" venv_path
  { cmd := command, env := env }

/-- The `if __name__ == "__main__"` block of `cdsw_python312_installer.py`
(lines 363-365): `sys.exit(0 if success else 1)` as a function of `main`'s
boolean result.  `some c` means the entry point exits with status `c`. -/
def installer_entry_exit (success : Bool) : Option Nat :=
  some (if success then 0 else 1)

end Installer

namespace VenvSwitcher

/-- `install_python312` from `cdsw_switch_to_venv.py` (lines 107-139): a
sequence of `sudo apt-get`/`add-apt-repository` subprocesses with
`check=True`; the first non-zero exit is caught by the shared
`except subprocess.CalledProcessError` (yielding `False`), while a launch
failure (e.g. no `sudo` binary) raises `FileNotFoundError`.  All steps
clean means `True`. -/
def runSeq : List RunOutcome → Except Exc Bool
  | [] => .ok true
  | .succeeds :: rest => runSeq rest
  | .fails :: _ => .ok false
  | .raises :: _ => .error .fileNotFoundError

/-- `install_python312` over the outcomes of its apt subprocess steps. -/
def install_python312 (sy : Sys) : Except Exc Bool :=
  runSeq sy.aptSteps

/-- `create_python312_venv` from `cdsw_switch_to_venv.py` (lines 70-105).
Checks `python3.12 --version` (a `CalledProcessError` or
`FileNotFoundError` there triggers `install_python312`, whose boolean
result is ignored), then creates the venv and upgrades pip with
`check=True`, catching only `CalledProcessError` (yielding `None`); on
success the hardcoded expanded venv path is returned. -/
def create_python312_venv (sy : Sys) (env : EnvMap) : Except Exc (Option String) :=
  let venv_path := expanduser sy env "~/venvs/py312"
  let step1 : Except Exc Unit :=
    match sy.py312VersionCheck with
    | .succeeds => .ok ()
    | _ =>
      match install_python312 sy with
      | .error e => .error e
      | .ok _ => .ok ()
  match step1 with
  | .error e => .error e
  | .ok _ =>
    match sy.venvCreate with
    | .raises => .error .fileNotFoundError
    | .fails => .ok none
    | .succeeds =>
      match sy.pipUpgrade with
      | .raises => .error .fileNotFoundError
      | .fails => .ok none
      | .succeeds => .ok (some venv_path)

/-- `switch_to_python312_venv` from `cdsw_switch_to_venv.py` (lines
13-68).  When the hardcoded venv directory `~/venvs/py312` (expanded) does
not exist, it calls `create_python312_venv()` and executes a bare
`return`, so the caller receives `None` (lines 29-32).  Otherwise it
prepends `<venv>/bin:` to `PATH`, sets `VIRTUAL_ENV`; when the
site-packages directory exists it removes from `sys.path` every entry
containing `"python3.6"` and inserts the site-packages path at index 0
only if not already present; finally it sets `sys.executable` to
`<venv>/bin/python` when that file exists, and returns `True`. -/
def switch_to_python312_venv (sy : Sys) (st : PyState) :
    Except Exc (Option Bool × PyState) :=
  let venv_path := expanduser sy st.env "~/venvs/py312"
  if ¬ sy.existsPath venv_path then
    match create_python312_venv sy st.env with
    | .error e => .error e
    | .ok _ => .ok (none, st)
  else
    let venv_bin_path := pjoin venv_path "bin"
    let st := { st with env := setEnv st.env "PATH" (venv_bin_path ++ ":" ++ getEnvD st.env "PATH" "") }
    let st := { st with env := setEnv st.env "VIRTUAL_ENV" venv_path }
    let site_packages_path := pjoin (pjoin (pjoin venv_path "lib") "python3.12") "site-packages"
    let st :=
      if sy.existsPath site_packages_path then
        let sp := st.sysPath.filter (fun p => !strContains p "python3.6")
        let sp := if site_packages_path ∈ sp then sp else site_packages_path :: sp
        { st with sysPath := sp }
      else st
    let venv_python := pjoin venv_bin_path "python"
    let st := if sy.existsPath venv_python then { st with sysExecutable := venv_python } else st
    .ok (some true, st)

end VenvSwitcher

/-- The `if __name__ == "__main__"` block of `cdsw_python_switcher.py`
(lines 348-349): it calls `main()` and never calls `sys.exit`, so no exit
status is derived from success or failure. -/
def switcher_entry_exit : Option Nat := none

/-- The `if __name__ == "__main__"` block of `fix_cdsw_python_version.py`
(lines 292-293): calls `main()`, no `sys.exit`. -/
def fixversion_entry_exit : Option Nat := none

/-- The `if __name__ == "__main__"` block of `cdsw_switch_to_venv.py`
(lines 287-288): calls `main()`, no `sys.exit`. -/
def venvswitcher_entry_exit : Option Nat := none

/-- The `if __name__ == "__main__"` block of `test_python312.py` (lines
160-161): calls `main()`, no `sys.exit`.  (`cdsw_python312_helper_fixed.py`
has no entry block at all.) -/
def testscript_entry_exit : Option Nat := none

/-- `os.path.join(venv_path, "lib", "python3.12", "site-packages")` as
both venv switchers compute it. -/
def sitePath (sy : Sys) (env : EnvMap) (vp : String) : String :=
  pjoin (pjoin (pjoin (expanduser sy env vp) "lib") "python3.12") "site-packages"

/-- A sample starting environment map: `PATH` and `HOME` set, everything
else absent. -/
def env0 : EnvMap := fun k =>
  if k = "PATH" then some "/usr/local/bin:/usr/bin:/bin"
  else if k = "HOME" then some "/home/cdsw"
  else none

/-- A sample starting interpreter state (a CDSW Python 3.6 session). -/
def st0 : PyState :=
  { env := env0
    sysExecutable := "/usr/bin/python3.6"
    sysPath := ["/usr/lib/python3.6/site-packages", "/usr/lib/python36.zip"] }

/-- A sample starting interpreter state with an empty `sys.path`. -/
def stEmpty : PyState :=
  { env := env0, sysExecutable := "/usr/bin/python3.6", sysPath := [] }

/-- A sample world where everything works: `which python3.12` succeeds,
every path exists, all subprocesses exit cleanly. -/
def sysBase : Sys :=
  { which312 := .ok "/usr/bin/python3.12\n"
    existsPath := fun _ => true
    currentUserHome := some "/home/cdsw"
    pwdDir := fun _ => none
    zoneinfoOk := true
    py312VersionCheck := .succeeds
    venvCreate := .succeeds
    pipUpgrade := .succeeds
    aptSteps := [.succeeds, .succeeds, .succeeds, .succeeds, .succeeds]
    writeOk := fun _ => true }

/-- World where the `which python3.12` lookup exits non-zero. -/
def sysWhichFails : Sys := { sysBase with which312 := .exitError }

/-- World where the `which` binary itself is missing. -/
def sysWhichMissing : Sys := { sysBase with which312 := .notFound }

/-- World where `which` exits non-zero and no filesystem path exists. -/
def sysNoPaths : Sys :=
  { sysBase with which312 := .exitError, existsPath := fun _ => false }

/-- World where `which` exits non-zero and only the second fallback
candidate exists. -/
def sysLoc2 : Sys :=
  { sysBase with which312 := .exitError
                 existsPath := fun s => s == "/usr/local/bin/python3.12" }

/-- World where everything works but `import zoneinfo` raises
`ImportError`. -/
def sysNoZone : Sys := { sysBase with zoneinfoOk := false }

/-- World where `python3.12 -m venv` exits non-zero. -/
def sysVenvFails : Sys := { sysBase with venvCreate := .fails }

/-- World where the pip upgrade inside the fresh venv exits non-zero. -/
def sysPipFails : Sys := { sysBase with pipUpgrade := .fails }

/-- World where no filesystem path exists (in particular the venv
directory is absent) but every subprocess exits cleanly. -/
def sysNoVenvDir : Sys := { sysBase with existsPath := fun _ => false }

/-! ### Substring helper lemmas -/

theorem isPrefixChars_append (n b : List Char) : isPrefixChars n (n ++ b) = true := by
  induction n with
  | nil => rfl
  | cons a as ih => simp [isPrefixChars, ih]

theorem occursIn_of_isPrefixChars {n h : List Char} (H : isPrefixChars n h = true) :
    occursIn n h = true := by
  cases h with
  | nil => simpa [occursIn] using H
  | cons c t => simp [occursIn, H]

theorem occursIn_append_left (n a : List Char) {h : List Char} (H : occursIn n h = true) :
    occursIn n (a ++ h) = true := by
  induction a with
  | nil => simpa using H
  | cons x xs ih => simp [occursIn, ih]

theorem occursIn_append_self (n b : List Char) : occursIn n (n ++ b) = true :=
  occursIn_of_isPrefixChars (isPrefixChars_append n b)

theorem replaceFirstAux_of_pref (old new l : List Char) (h : isPrefixChars old l = true) :
    replaceFirstAux old new l = new ++ l.drop old.length := by
  cases l with
  | nil =>
    cases old with
    | nil => simp [replaceFirstAux, h]
    | cons o os => simp [isPrefixChars] at h
  | cons c t => simp [replaceFirstAux, h]

/-! ### Claims -/

/-- C1 (counterexample): the claim says all three path-switching functions
return `False` without raising whenever the `which python3.12` lookup
fails, including when the lookup binary itself is missing.  But
`switch_to_python312_method1` in `cdsw_python_switcher.py` catches only
`subprocess.CalledProcessError`, so in a concrete environment where the
`which` binary is missing it raises `FileNotFoundError` to its caller
instead of returning `False`. -/
theorem claim_C1_counterexample :
    Switcher.switch_to_python312_method1 sysWhichMissing st0
      = .error .fileNotFoundError := rfl

/-- C1 (amended): when the lookup exits non-zero, all three functions
return `False` without raising; when the lookup binary itself is missing,
`switch_to_python312` and `fix_python_version` still return `False`
(their catch-all `except Exception` fires), but
`switch_to_python312_method1` propagates `FileNotFoundError`. -/
theorem claim_C1_amended :
    (∀ (sy : Sys) (st : PyState),
      sy.which312 = .exitError ∨ sy.which312 = .notFound →
      HelperFixed.switch_to_python312 sy st = (false, st)) ∧
    (∀ (sy : Sys) (st : PyState),
      sy.which312 = .exitError ∨ sy.which312 = .notFound →
      FixVersion.fix_python_version sy st = (false, st)) ∧
    (∀ (sy : Sys) (st : PyState), sy.which312 = .exitError →
      Switcher.switch_to_python312_method1 sy st = .ok (false, st)) ∧
    (∀ (sy : Sys) (st : PyState), sy.which312 = .notFound →
      Switcher.switch_to_python312_method1 sy st = .error .fileNotFoundError) := by
  refine ⟨fun sy st h => ?_, fun sy st h => ?_, fun sy st h => ?_, fun sy st h => ?_⟩
  · rcases h with h | h <;> simp [HelperFixed.switch_to_python312, h]
  · rcases h with h | h <;> simp [FixVersion.fix_python_version, h]
  · simp [Switcher.switch_to_python312_method1, h]
  · simp [Switcher.switch_to_python312_method1, h]

/-- C1 (witness): the amended statement at concrete inputs. -/
theorem claim_C1_witness :
    HelperFixed.switch_to_python312 sysWhichFails st0 = (false, st0) ∧
    FixVersion.fix_python_version sysWhichMissing st0 = (false, st0) ∧
    Switcher.switch_to_python312_method1 sysWhichFails st0 = .ok (false, st0) :=
  ⟨claim_C1_amended.1 sysWhichFails st0 (Or.inl rfl),
   claim_C1_amended.2.1 sysWhichMissing st0 (Or.inr rfl),
   claim_C1_amended.2.2.1 sysWhichFails st0 rfl⟩

/-- C5 (confirmed): when interpreter resolution fails entirely, the switch
functions return a failure result and `PATH`, `PY_PYTHON`,
`PYTHON_VERSION` and `sys.executable` are exactly as on entry; for
`switch_to_python312_advanced` this covers the case where `which` exits
non-zero and no fallback candidate exists, in which the whole state is
returned untouched. -/
theorem claim_C5_confirmed :
    (∀ (sy : Sys) (st : PyState),
      sy.which312 = .exitError ∨ sy.which312 = .notFound →
      (HelperFixed.switch_to_python312 sy st).1 = false ∧
      (HelperFixed.switch_to_python312 sy st).2.env "PATH" = st.env "PATH" ∧
      (HelperFixed.switch_to_python312 sy st).2.env "PY_PYTHON" = st.env "PY_PYTHON" ∧
      (HelperFixed.switch_to_python312 sy st).2.env "PYTHON_VERSION" = st.env "PYTHON_VERSION" ∧
      (HelperFixed.switch_to_python312 sy st).2.sysExecutable = st.sysExecutable) ∧
    (∀ (sy : Sys) (st : PyState),
      sy.which312 = .exitError ∨ sy.which312 = .notFound →
      (FixVersion.fix_python_version sy st).1 = false ∧
      (FixVersion.fix_python_version sy st).2 = st) ∧
    (∀ (sy : Sys) (st : PyState),
      sy.which312 = .exitError → HelperFixed.firstExistingLoc sy = none →
      HelperFixed.switch_to_python312_advanced sy st = .ok (false, st)) := by
  refine ⟨fun sy st h => ?_, fun sy st h => ?_, fun sy st h h2 => ?_⟩
  · rcases h with h | h <;> simp [HelperFixed.switch_to_python312, h]
  · rcases h with h | h <;> simp [FixVersion.fix_python_version, h]
  · simp [HelperFixed.switch_to_python312_advanced, HelperFixed.adv_findPath, h, h2]

/-- C5 (witness): the confirmed statement at concrete inputs. -/
theorem claim_C5_witness :
    (HelperFixed.switch_to_python312 sysWhichFails st0).2.env "PATH" = st0.env "PATH" ∧
    HelperFixed.switch_to_python312_advanced sysNoPaths st0 = .ok (false, st0) :=
  ⟨(claim_C5_confirmed.1 sysWhichFails st0 (Or.inl rfl)).2.1,
   claim_C5_confirmed.2.2 sysNoPaths st0 rfl rfl⟩

/-- C4 (confirmed): whenever a switch function succeeds, it sets `PATH` to
the resolved interpreter directory, a colon, and the entire previous
`PATH` value, sets `PY_PYTHON` and `PYTHON_VERSION` to `"3.12"`, and
leaves every other environment variable unchanged; stated for
`switch_to_python312`, `fix_python_version` (whose success additionally
requires the `zoneinfo` probe to pass) and
`switch_to_python312_method3`. -/
theorem claim_C4_confirmed :
    (∀ (sy : Sys) (st : PyState) (out : String), sy.which312 = .ok out →
      (HelperFixed.switch_to_python312 sy st).1 = true ∧
      (HelperFixed.switch_to_python312 sy st).2.env "PATH"
        = some (dirname (pyStrip out) ++ ":" ++ getEnvD st.env "PATH" "") ∧
      (HelperFixed.switch_to_python312 sy st).2.env "PY_PYTHON" = some "3.12" ∧
      (HelperFixed.switch_to_python312 sy st).2.env "PYTHON_VERSION" = some "3.12" ∧
      (∀ k, k ≠ "PATH" → k ≠ "PY_PYTHON" → k ≠ "PYTHON_VERSION" →
        (HelperFixed.switch_to_python312 sy st).2.env k = st.env k)) ∧
    (∀ (sy : Sys) (st : PyState) (out : String),
      sy.which312 = .ok out → sy.zoneinfoOk = true →
      (FixVersion.fix_python_version sy st).1 = true ∧
      (FixVersion.fix_python_version sy st).2.env "PATH"
        = some (dirname (pyStrip out) ++ ":" ++ getEnvD st.env "PATH" "") ∧
      (FixVersion.fix_python_version sy st).2.env "PY_PYTHON" = some "3.12" ∧
      (FixVersion.fix_python_version sy st).2.env "PYTHON_VERSION" = some "3.12" ∧
      (∀ k, k ≠ "PATH" → k ≠ "PY_PYTHON" → k ≠ "PYTHON_VERSION" →
        (FixVersion.fix_python_version sy st).2.env k = st.env k)) ∧
    (∀ (sy : Sys) (st : PyState) (out : String), sy.which312 = .ok out →
      ∃ st2, Switcher.switch_to_python312_method3 sy st = .ok (true, st2) ∧
        st2.env "PATH" = some (dirname (pyStrip out) ++ ":" ++ getEnvD st.env "PATH" "") ∧
        st2.env "PY_PYTHON" = some "3.12" ∧
        st2.env "PYTHON_VERSION" = some "3.12" ∧
        (∀ k, k ≠ "PATH" → k ≠ "PY_PYTHON" → k ≠ "PYTHON_VERSION" →
          st2.env k = st.env k)) := by
  refine ⟨fun sy st out h => ?_, fun sy st out h hz => ?_, fun sy st out h => ?_⟩
  · refine ⟨?_, ?_, ?_, ?_, fun k h1 h2 h3 =>
      by simp [HelperFixed.switch_to_python312, h, setEnv, getEnvD, h1, h2, h3]⟩ <;>
      simp [HelperFixed.switch_to_python312, h, setEnv, getEnvD]
  · refine ⟨?_, ?_, ?_, ?_, fun k h1 h2 h3 =>
      by simp [FixVersion.fix_python_version, h, hz, setEnv, getEnvD, h1, h2, h3]⟩ <;>
      simp [FixVersion.fix_python_version, h, hz, setEnv, getEnvD]
  · simp only [Switcher.switch_to_python312_method3, h]
    refine ⟨_, rfl, ?_, ?_, ?_, fun k h1 h2 h3 => ?_⟩
    · simp [setEnv, getEnvD]
    · simp [setEnv]
    · simp [setEnv]
    · simp [setEnv, h1, h2, h3]

/-- C4 (witness): the confirmed statement at concrete inputs; the new
`PATH` is `/usr/bin` prepended with a colon to the old value, the two
auxiliary variables are `"3.12"`, and `HOME` is untouched. -/
theorem claim_C4_witness :
    (HelperFixed.switch_to_python312 sysBase st0).2.env "PATH"
      = some ("/usr/bin" ++ ":" ++ "/usr/local/bin:/usr/bin:/bin") ∧
    (HelperFixed.switch_to_python312 sysBase st0).2.env "PY_PYTHON" = some "3.12" ∧
    (HelperFixed.switch_to_python312 sysBase st0).2.env "HOME" = some "/home/cdsw" := by
  have h := claim_C4_confirmed.1 sysBase st0 "/usr/bin/python3.12\n" rfl
  refine ⟨?_, h.2.2.1, ?_⟩
  · have := h.2.1
    simpa using this
  · have := h.2.2.2.2 "HOME" (by decide) (by decide) (by decide)
    simpa using this

/-- C6 (confirmed): when the `which python3.12` lookup exits non-zero,
`switch_to_python312_advanced` checks `/usr/bin/python3.12`,
`/usr/local/bin/python3.12`, `/opt/python3.12/bin/python3.12` in exactly
that order, resolving to the first that exists (observable as the new
`sys.executable`) and returning `True`; when none exists it returns
`False`. -/
theorem claim_C6_confirmed :
    ∀ (sy : Sys) (st : PyState), sy.which312 = .exitError →
      (sy.existsPath "/usr/bin/python3.12" = true →
        ∃ st2, HelperFixed.switch_to_python312_advanced sy st = .ok (true, st2) ∧
          st2.sysExecutable = "/usr/bin/python3.12") ∧
      (sy.existsPath "/usr/bin/python3.12" = false →
        sy.existsPath "/usr/local/bin/python3.12" = true →
        ∃ st2, HelperFixed.switch_to_python312_advanced sy st = .ok (true, st2) ∧
          st2.sysExecutable = "/usr/local/bin/python3.12") ∧
      (sy.existsPath "/usr/bin/python3.12" = false →
        sy.existsPath "/usr/local/bin/python3.12" = false →
        sy.existsPath "/opt/python3.12/bin/python3.12" = true →
        ∃ st2, HelperFixed.switch_to_python312_advanced sy st = .ok (true, st2) ∧
          st2.sysExecutable = "/opt/python3.12/bin/python3.12") ∧
      (sy.existsPath "/usr/bin/python3.12" = false →
        sy.existsPath "/usr/local/bin/python3.12" = false →
        sy.existsPath "/opt/python3.12/bin/python3.12" = false →
        HelperFixed.switch_to_python312_advanced sy st = .ok (false, st)) := by
  intro sy st h
  refine ⟨fun ha => ?_, fun ha hb => ?_, fun ha hb hc => ?_, fun ha hb hc => ?_⟩
  · simp [HelperFixed.switch_to_python312_advanced, HelperFixed.adv_findPath,
      HelperFixed.firstExistingLoc, HelperFixed.common_locations, List.find?, h, ha]
  · simp [HelperFixed.switch_to_python312_advanced, HelperFixed.adv_findPath,
      HelperFixed.firstExistingLoc, HelperFixed.common_locations, List.find?, h, ha, hb]
  · simp [HelperFixed.switch_to_python312_advanced, HelperFixed.adv_findPath,
      HelperFixed.firstExistingLoc, HelperFixed.common_locations, List.find?, h, ha, hb, hc]
  · simp [HelperFixed.switch_to_python312_advanced, HelperFixed.adv_findPath,
      HelperFixed.firstExistingLoc, HelperFixed.common_locations, List.find?, h, ha, hb, hc]

/-- C6 (witness): with `which` failing and only the second candidate
present, the advanced switcher resolves to
`/usr/local/bin/python3.12`. -/
theorem claim_C6_witness :
    ∃ st2, HelperFixed.switch_to_python312_advanced sysLoc2 st0 = .ok (true, st2) ∧
      st2.sysExecutable = "/usr/local/bin/python3.12" :=
  (claim_C6_confirmed sysLoc2 st0 rfl).2.1 rfl rfl

/-- C8 (confirmed): once `switch_to_python312_advanced` has resolved a
(non-falsy) interpreter path, it returns `True` even when the
`import zoneinfo` probe raises `ImportError` — its boolean result reflects
path resolution, not probe success. -/
theorem claim_C8_confirmed :
    ∀ (sy : Sys) (st : PyState) (p : String),
      sy.zoneinfoOk = false →
      HelperFixed.adv_findPath sy = .ok (some p) → p ≠ "" →
      ∃ st2, HelperFixed.switch_to_python312_advanced sy st = .ok (true, st2) := by
  intro sy st p hz hf hp
  simp [HelperFixed.switch_to_python312_advanced, hf, hp, hz]

/-- C8 (witness): with `which` succeeding and `zoneinfo` unavailable, the
advanced switcher still returns `True`. -/
theorem claim_C8_witness :
    ∃ st2, HelperFixed.switch_to_python312_advanced sysNoZone st0 = .ok (true, st2) :=
  claim_C8_confirmed sysNoZone st0 "/usr/bin/python3.12" rfl rfl (by decide)

/-- C7 (confirmed): only `cdsw_python312_installer.py`'s entry point
establishes an exit-code contract — status 0 when `main()` returns `True`
and 1 otherwise — while the entry points of the other scripts never call
`sys.exit`, so they derive no exit status from success or failure. -/
theorem claim_C7_confirmed :
    Installer.installer_entry_exit true = some 0 ∧
    Installer.installer_entry_exit false = some 1 ∧
    switcher_entry_exit = none ∧
    fixversion_entry_exit = none ∧
    venvswitcher_entry_exit = none ∧
    testscript_entry_exit = none :=
  ⟨rfl, rfl, rfl, rfl, rfl, rfl⟩

/-- C2 (counterexample): the claim says failures are converted to boolean
return values; but in a concrete world where the venv directory is absent
and all creation subprocesses exit cleanly, `switch_to_python312_venv`
(`cdsw_switch_to_venv.py` lines 29-32) executes a bare `return` and
yields `None`, and in a world where `python3.12 -m venv` exits non-zero,
the installer's `create_python312_venv` also returns `None` — neither is a
boolean. -/
theorem claim_C2_counterexample :
    VenvSwitcher.switch_to_python312_venv sysNoVenvDir st0 = .ok (none, st0) ∧
    Installer.create_python312_venv sysVenvFails env0 "~/venvs/py312" = .ok none :=
  ⟨rfl, rfl⟩

/-- C2 (amended): caught failures are converted to a returned *falsy*
value, but that value is `None`, not a boolean: the installer's
`create_python312_venv` returns `None` when venv creation or the pip
upgrade exits non-zero, and `switch_to_python312_venv` returns `None`
(with the interpreter state untouched) when the venv directory does not
exist and the creation subprocesses complete without raising. -/
theorem claim_C2_amended :
    (∀ (sy : Sys) (env : EnvMap) (vp : String), sy.venvCreate = .fails →
      Installer.create_python312_venv sy env vp = .ok none) ∧
    (∀ (sy : Sys) (env : EnvMap) (vp : String),
      sy.venvCreate = .succeeds → sy.pipUpgrade = .fails →
      Installer.create_python312_venv sy env vp = .ok none) ∧
    (∀ (sy : Sys) (st : PyState),
      sy.existsPath (expanduser sy st.env "~/venvs/py312") = false →
      sy.py312VersionCheck = .succeeds →
      sy.venvCreate = .succeeds → sy.pipUpgrade = .succeeds →
      VenvSwitcher.switch_to_python312_venv sy st = .ok (none, st)) := by
  refine ⟨fun sy env vp h => ?_, fun sy env vp h h2 => ?_, fun sy st h h1 h2 h3 => ?_⟩
  · simp [Installer.create_python312_venv, h]
  · simp [Installer.create_python312_venv, h, h2]
  · simp [VenvSwitcher.switch_to_python312_venv, VenvSwitcher.create_python312_venv,
      h, h1, h2, h3]

/-- C2 (witness): the amended statement at concrete inputs. -/
theorem claim_C2_witness :
    Installer.create_python312_venv sysVenvFails env0 "/opt/venv" = .ok none ∧
    Installer.create_python312_venv sysPipFails env0 "/opt/venv" = .ok none ∧
    VenvSwitcher.switch_to_python312_venv sysNoVenvDir stEmpty = .ok (none, stEmpty) :=
  ⟨claim_C2_amended.1 sysVenvFails env0 "/opt/venv" rfl,
   claim_C2_amended.2.1 sysPipFails env0 "/opt/venv" rfl rfl,
   claim_C2_amended.2.2 sysNoVenvDir stEmpty rfl rfl rfl rfl⟩

/-- The second component of `create_activation_script` is always the
rendered activation content at the expanded venv path, whether or not the
write succeeds. -/
theorem create_activation_snd (sy : Sys) (env : EnvMap) (p : String) :
    (Installer.create_activation_script sy env p).2
      = Installer.activation_content (expanduser sy env p) := by
  unfold Installer.create_activation_script
  by_cases h : sy.writeOk (expanduser sy env "~/activate_py312.sh") = true <;> simp [h]

/-- The activation content contains its venv-path argument verbatim. -/
theorem strContains_activation (q : String) :
    strContains (Installer.activation_content q) q = true := by
  unfold strContains Installer.activation_content
  simp only [String.data_append, List.append_assoc]
  exact occursIn_append_left _ _ (occursIn_append_self _ _)

set_option maxRecDepth 4000 in
/-- C3 (counterexample): the claim says the script content contains the
literal parameter `p` even when `p` begins with `~`; but
`create_activation_script` expands the path first, so for
`p = "~/venvs/py312"` with `HOME=/home/cdsw` the written content contains
`/home/cdsw/venvs/py312` and not the literal `~/venvs/py312`. -/
theorem claim_C3_counterexample :
    startsWithStr "~/venvs/py312" "~" = true ∧
    strContains (Installer.create_activation_script sysBase env0 "~/venvs/py312").2
      "~/venvs/py312" = false := by
  refine ⟨rfl, ?_⟩
  decide

/-- C3 (amended): the content written to `~/activate_py312.sh` contains
the literal `os.path.expanduser(p)` (which appears both as the
`VIRTUAL_ENV` value and as the `PATH` prefix); this equals the literal `p`
exactly when `p` does not begin with `~`. -/
theorem claim_C3_amended :
    ∀ (sy : Sys) (env : EnvMap) (p : String),
      strContains (Installer.create_activation_script sy env p).2
        (expanduser sy env p) = true ∧
      (startsWithStr p "~" = false →
        strContains (Installer.create_activation_script sy env p).2 p = true) := by
  intro sy env p
  have key : strContains (Installer.create_activation_script sy env p).2
      (expanduser sy env p) = true := by
    rw [create_activation_snd]
    exact strContains_activation _
  refine ⟨key, fun hns => ?_⟩
  have he : expanduser sy env p = p := by simp [expanduser, hns]
  rwa [he] at key

/-- C3 (witness): the amended statement at a concrete tilde-free path. -/
theorem claim_C3_witness :
    strContains (Installer.create_activation_script sysBase env0 "/opt/venvs/py312").2
      "/opt/venvs/py312" = true :=
  (claim_C3_amended sysBase env0 "/opt/venvs/py312").2 rfl

/-- When `s` starts with `old`, Python's `s.replace(old, new, 1)` yields
`new` followed by the rest of `s`. -/
theorem replaceFirst_eq_of_startsWith (s old new : String)
    (h : startsWithStr s old = true) :
    replaceFirst s old new = new ++ strDrop s old.data.length := by
  apply String.ext
  show (replaceFirst s old new).data = (new ++ strDrop s old.data.length).data
  simp only [replaceFirst, strDrop, String.data_append]
  exact replaceFirstAux_of_pref old.data new.data s.data h

/-- C10 (confirmed): `force_python312_execution` rewrites only commands
starting with `"python "` or `"pip "` (first occurrence replaced by the
venv binary) or equal to `"python"`/`"python3"`; every other command —
including one starting with `"python3.12"` — reaches the shell verbatim,
while the child environment always gets `PATH` prefixed by the venv `bin`
directory and `VIRTUAL_ENV` set to the venv path, all other variables
unchanged. -/
theorem claim_C10_confirmed :
    ∀ (sy : Sys) (env : EnvMap) (command venv_path : String),
      (startsWithStr command "python " = true →
        (Installer.force_python312_call sy env command venv_path).cmd
          = (pjoin (expanduser sy env venv_path) "bin" ++ "/python ") ++ strDrop command 7) ∧
      (startsWithStr command "python " = false → startsWithStr command "pip " = true →
        (Installer.force_python312_call sy env command venv_path).cmd
          = (pjoin (expanduser sy env venv_path) "bin" ++ "/pip ") ++ strDrop command 4) ∧
      ((command = "python" ∨ command = "python3") →
        (Installer.force_python312_call sy env command venv_path).cmd
          = pjoin (expanduser sy env venv_path) "bin" ++ "/python") ∧
      (startsWithStr command "python " = false → startsWithStr command "pip " = false →
        command ≠ "python" → command ≠ "python3" →
        (Installer.force_python312_call sy env command venv_path).cmd = command) ∧
      (Installer.force_python312_call sy env command venv_path).env "PATH"
        = some (pjoin (expanduser sy env venv_path) "bin" ++ ":" ++ getEnvD env "PATH" "") ∧
      (Installer.force_python312_call sy env command venv_path).env "VIRTUAL_ENV"
        = some (expanduser sy env venv_path) ∧
      (∀ k, k ≠ "PATH" → k ≠ "VIRTUAL_ENV" →
        (Installer.force_python312_call sy env command venv_path).env k = env k) := by
  intro sy env command venv_path
  refine ⟨fun h1 => ?_, fun h1 h2 => ?_, fun h3 => ?_, fun h1 h2 h3 h4 => ?_, ?_, ?_,
    fun k hk1 hk2 => ?_⟩
  · simp only [Installer.force_python312_call, h1, if_true]
    exact replaceFirst_eq_of_startsWith _ _ _ h1
  · simp only [Installer.force_python312_call, h1, h2, Bool.false_eq_true, if_false, if_true]
    exact replaceFirst_eq_of_startsWith _ _ _ h2
  · rcases h3 with rfl | rfl <;> rfl
  · simp [Installer.force_python312_call, h1, h2, h3, h4, setEnv]
  · simp [Installer.force_python312_call, setEnv]
  · simp [Installer.force_python312_call, setEnv]
  · simp [Installer.force_python312_call, setEnv, hk1, hk2]

/-- C10 (witness): a command starting with `"python3.12"` is passed
through verbatim while the child environment still gets the venv
`VIRTUAL_ENV`. -/
theorem claim_C10_witness :
    (Installer.force_python312_call sysBase env0 "python3.12 --version" "~/venvs/py312").cmd
      = "python3.12 --version" ∧
    (Installer.force_python312_call sysBase env0 "python3.12 --version" "~/venvs/py312").env
      "VIRTUAL_ENV" = some "/home/cdsw/venvs/py312" := by
  have h := claim_C10_confirmed sysBase env0 "python3.12 --version" "~/venvs/py312"
  refine ⟨h.2.2.2.1 rfl rfl (by decide) (by decide), ?_⟩
  rw [h.2.2.2.2.2.1]
  decide

/-- The insert-at-front-if-absent step of the venv switchers: the inserted
element is always a member of the result. -/
theorem mem_insertIfAbsent (site : String) (f : List String) :
    site ∈ (if site ∈ f then f else site :: f) := by
  by_cases h : site ∈ f <;> simp [h]

/-- A property holding of the inserted element and of every element of the
filtered list holds of every element after the insert-if-absent step. -/
theorem forall_insertIfAbsent (site : String) (f : List String) (P : String → Prop)
    (hsite : P site) (hf : ∀ q ∈ f, P q) :
    ∀ q ∈ (if site ∈ f then f else site :: f), P q := by
  intro q hq
  by_cases h : site ∈ f
  · rw [if_pos h] at hq
    exact hf q hq
  · rw [if_neg h] at hq
    rcases List.mem_cons.mp hq with rfl | hq2
    · exact hsite
    · exact hf q hq2

/-- Every survivor of the installer's `sys.path` filter is free of the
substring `python3.6`. -/
theorem filter_no36_installer (l : List String) :
    ∀ q ∈ l.filter (fun p => !strContains p "python3.6" && !strContains p "python2.7"),
      strContains q "python3.6" = false := by
  intro q hq
  have h2 := (List.mem_filter.mp hq).2
  simp only [Bool.and_eq_true, Bool.not_eq_true'] at h2
  exact h2.1

/-- Every survivor of the venv switcher's `sys.path` filter is free of the
substring `python3.6`. -/
theorem filter_no36_venv (l : List String) :
    ∀ q ∈ l.filter (fun p => !strContains p "python3.6"),
      strContains q "python3.6" = false := by
  intro q hq
  have h2 := (List.mem_filter.mp hq).2
  simpa only [Bool.not_eq_true'] using h2

set_option maxRecDepth 4000 in
/-- C9 (counterexample): the claim says that after `switch_to_venv`
completes with the site-packages directory present, `sys.path` contains no
entry containing `"python3.6"`; but for a venv path that itself contains
`"python3.6"`, the freshly inserted site-packages entry contains that
substring. -/
theorem claim_C9_counterexample :
    (Installer.switch_to_venv sysBase stEmpty "/opt/python3.6venv").1 = true ∧
    (Installer.switch_to_venv sysBase stEmpty "/opt/python3.6venv").2.sysPath
      = ["/opt/python3.6venv/lib/python3.12/site-packages"] ∧
    strContains "/opt/python3.6venv/lib/python3.12/site-packages" "python3.6" = true := by
  refine ⟨?_, ?_, ?_⟩ <;> decide

/-- C9 (amended): provided the venv site-packages path itself does not
contain `"python3.6"`, then after `switch_to_venv` (and after
`switch_to_python312_venv`) completes with the venv and its site-packages
directory present: the function succeeds, the new `sys.path` has no entry
containing `"python3.6"`, it contains the site-packages path, and that
path is inserted at index 0 only when it was not already in the filtered
list — an already-present entry is left where it is. -/
theorem claim_C9_amended :
    (∀ (sy : Sys) (st : PyState) (vp : String),
      sy.existsPath (expanduser sy st.env vp) = true →
      sy.existsPath (sitePath sy st.env vp) = true →
      strContains (sitePath sy st.env vp) "python3.6" = false →
      (Installer.switch_to_venv sy st vp).1 = true ∧
      (sitePath sy st.env vp ∈ st.sysPath.filter
          (fun p => !strContains p "python3.6" && !strContains p "python2.7") →
        (Installer.switch_to_venv sy st vp).2.sysPath
          = st.sysPath.filter
              (fun p => !strContains p "python3.6" && !strContains p "python2.7")) ∧
      (sitePath sy st.env vp ∉ st.sysPath.filter
          (fun p => !strContains p "python3.6" && !strContains p "python2.7") →
        (Installer.switch_to_venv sy st vp).2.sysPath
          = sitePath sy st.env vp :: st.sysPath.filter
              (fun p => !strContains p "python3.6" && !strContains p "python2.7")) ∧
      sitePath sy st.env vp ∈ (Installer.switch_to_venv sy st vp).2.sysPath ∧
      (∀ q ∈ (Installer.switch_to_venv sy st vp).2.sysPath,
        strContains q "python3.6" = false)) ∧
    (∀ (sy : Sys) (st : PyState),
      sy.existsPath (expanduser sy st.env "~/venvs/py312") = true →
      sy.existsPath (sitePath sy st.env "~/venvs/py312") = true →
      strContains (sitePath sy st.env "~/venvs/py312") "python3.6" = false →
      ∃ st2, VenvSwitcher.switch_to_python312_venv sy st = .ok (some true, st2) ∧
        (sitePath sy st.env "~/venvs/py312"
            ∈ st.sysPath.filter (fun p => !strContains p "python3.6") →
          st2.sysPath = st.sysPath.filter (fun p => !strContains p "python3.6")) ∧
        (sitePath sy st.env "~/venvs/py312"
            ∉ st.sysPath.filter (fun p => !strContains p "python3.6") →
          st2.sysPath = sitePath sy st.env "~/venvs/py312"
            :: st.sysPath.filter (fun p => !strContains p "python3.6")) ∧
        sitePath sy st.env "~/venvs/py312" ∈ st2.sysPath ∧
        (∀ q ∈ st2.sysPath, strContains q "python3.6" = false)) := by
  constructor
  · intro sy st vp h1 h2 h3
    have h2u : sy.existsPath (pjoin (pjoin (pjoin (expanduser sy st.env vp) "lib")
        "python3.12") "site-packages") = true := by
      simpa only [sitePath] using h2
    have hpath : (Installer.switch_to_venv sy st vp).2.sysPath
        = (if sitePath sy st.env vp ∈ st.sysPath.filter
              (fun p => !strContains p "python3.6" && !strContains p "python2.7")
           then st.sysPath.filter
              (fun p => !strContains p "python3.6" && !strContains p "python2.7")
           else sitePath sy st.env vp :: st.sysPath.filter
              (fun p => !strContains p "python3.6" && !strContains p "python2.7")) := by
      cases hvp : sy.existsPath (pjoin (pjoin (expanduser sy st.env vp) "bin") "python") <;>
        simp [Installer.switch_to_venv, sitePath, h1, h2u, hvp]
    have hfst : (Installer.switch_to_venv sy st vp).1 = true := by
      cases hvp : sy.existsPath (pjoin (pjoin (expanduser sy st.env vp) "bin") "python") <;>
        simp [Installer.switch_to_venv, h1, h2u, hvp]
    refine ⟨hfst, fun hm => ?_, fun hm => ?_, ?_, ?_⟩
    · rw [hpath, if_pos hm]
    · rw [hpath, if_neg hm]
    · rw [hpath]
      exact mem_insertIfAbsent _ _
    · rw [hpath]
      exact forall_insertIfAbsent _ _ _ h3 (filter_no36_installer _)
  · intro sy st h1 h2 h3
    have h2u : sy.existsPath (pjoin (pjoin (pjoin (expanduser sy st.env "~/venvs/py312")
        "lib") "python3.12") "site-packages") = true := by
      simpa only [sitePath] using h2
    have heq : VenvSwitcher.switch_to_python312_venv sy st = .ok (some true,
        { env := setEnv (setEnv st.env "PATH"
            (pjoin (expanduser sy st.env "~/venvs/py312") "bin" ++ ":"
              ++ getEnvD st.env "PATH" "")) "VIRTUAL_ENV"
            (expanduser sy st.env "~/venvs/py312")
          sysExecutable :=
            if sy.existsPath (pjoin (pjoin (expanduser sy st.env "~/venvs/py312") "bin")
                "python") = true
            then pjoin (pjoin (expanduser sy st.env "~/venvs/py312") "bin") "python"
            else st.sysExecutable
          sysPath :=
            if sitePath sy st.env "~/venvs/py312"
                ∈ st.sysPath.filter (fun p => !strContains p "python3.6")
            then st.sysPath.filter (fun p => !strContains p "python3.6")
            else sitePath sy st.env "~/venvs/py312"
              :: st.sysPath.filter (fun p => !strContains p "python3.6") }) := by
      cases hvp : sy.existsPath (pjoin (pjoin (expanduser sy st.env "~/venvs/py312") "bin")
          "python") <;>
        simp [VenvSwitcher.switch_to_python312_venv, sitePath, h1, h2u, hvp]
    refine ⟨_, heq, fun hm => ?_, fun hm => ?_, ?_, ?_⟩
    · exact if_pos hm
    · exact if_neg hm
    · exact mem_insertIfAbsent _ _
    · exact forall_insertIfAbsent _ _ _ h3 (filter_no36_venv _)

/-- C9 (witness): the amended statement at concrete inputs: the fresh
site-packages path lands at the front of the filtered `sys.path`. -/
theorem claim_C9_witness :
    (Installer.switch_to_venv sysBase st0 "/opt/venvs/py312").2.sysPath
      = "/opt/venvs/py312/lib/python3.12/site-packages" :: ["/usr/lib/python36.zip"] := by
  have h := (claim_C9_amended.1 sysBase st0 "/opt/venvs/py312" rfl rfl (by decide)).2.2.1
    (by decide)
  simpa using h
